import Mathlib

/-!
Shallow embedding of the GestorVideos repository (a Tkinter/yt-dlp video
downloader written twice: a minimal MVC version in `modelo.py` /
`controlador.py` and an expanded version in `models/video_downloader_model.py`
/ `controllers/video_downloader_controller.py`).

Calls into the external library `yt_dlp` (URL extraction and download) are
modelled as oracle parameters of type `Except String _`: `Except.ok` is the
library call returning normally, `Except.error e` is the call raising an
exception whose `str(...)` text is `e`.  Python dictionaries returned by the
library are modelled as structures with `Option` fields (`none` = key absent).
Filesystem and GUI side effects (mkdir, dialogs, widget updates) are outside
the modelled state; observable interactions with the controller (callback
invocations, log lines) are recorded as explicit event lists.
-/

namespace GestorVideos

/-! ### String containment (Python's `needle in haystack` substring test) -/

/-- Boolean test that the first character list is a prefix of the second. -/
def isPrefixL : List Char → List Char → Bool
  | [], _ => true
  | _ :: _, [] => false
  | a :: as, b :: bs => a == b && isPrefixL as bs

/-- Boolean test that the first character list occurs contiguously inside the
second: Python's substring operator `in` on the underlying characters. -/
def isInfixL (n : List Char) : List Char → Bool
  | [] => isPrefixL n []
  | b :: bs => isPrefixL n (b :: bs) || isInfixL n bs

/-- Python's `str.strip()` with no argument: remove leading and trailing
whitespace characters.  (Python strips the full Unicode whitespace class;
`Char.isWhitespace` covers the ASCII part, which is what URLs contain.) -/
def stripChars (l : List Char) : List Char :=
  ((l.dropWhile Char.isWhitespace).reverse.dropWhile Char.isWhitespace).reverse

/-- Python's `str.lower()`, character by character. -/
def lowerChars (l : List Char) : List Char := l.map Char.toLower

/-! ### Shared dictionary models -/

/-- One entry of the `formats` list of a yt-dlp info dictionary; only the keys
read by `modelo.py` are modelled (`none` = key absent). -/
structure FormatDict where
  vcodec : Option String
  ext : Option String
  height : Option Nat
deriving DecidableEq, Repr

/-- A yt-dlp info dictionary as returned by `extract_info`; only the keys read
by the embedded code are modelled.  `entries`, when present, is the length of
the playlist entry list (the expanded controller only reads `len(entries)` in
the fragment embedded here).  Library results are non-empty dictionaries, so
Python truthiness of a present dictionary is `true`. -/
structure InfoDict where
  title : Option String
  duration : Option Nat
  formats : Option (List FormatDict)
  entries : Option Nat
deriving DecidableEq, Repr

/-! ### Minimal model: `modelo.py` (`DescargadorModelo`) -/

/-- Result dictionary built by `DescargadorModelo.obtener_informacion_video`
on success: keys `titulo`, `duracion`, `formatos`. -/
structure VideoInfoResult where
  titulo : String
  duracion : Nat
  formatos : List String
deriving DecidableEq, Repr

/-- `DescargadorModelo.validar_url` (`modelo.py` lines 148-164): wraps
`ydl.extract_info(url, download=False)` in try/except, returning `True` on
normal return and `False` on any exception.  The library call is the oracle
argument. -/
def validar_url (extractResult : Except String InfoDict) : Bool :=
  match extractResult with
  | .ok _ => true
  | .error _ => false

/-- The string `f"{ext} - {quality}p"` built for one format entry, where
`quality` is `formato.get('height', 'N/A')` (so a missing height renders as
`"N/Ap"`, exactly as the Python format string does). -/
def formatoLinea (f : FormatDict) : String :=
  (f.ext.getD "mp4") ++ " - " ++
    (match f.height with
     | some h => toString h
     | none => "N/A") ++ "p"

/-- `DescargadorModelo.obtener_informacion_video` (`modelo.py` lines 57-91):
extracts title / duration / video-bearing formats from the info dictionary,
returning `none` when any step raises (the whole body is one try/except
returning `None`).  Python's `list(set(...))` de-duplication iterates in an
unspecified order; `List.dedup` (keep first occurrences) stands for it. -/
def obtener_informacion_video (extractResult : Except String InfoDict) :
    Option VideoInfoResult :=
  match extractResult with
  | .error _ => none
  | .ok info =>
      some
        { titulo := info.title.getD "Sin título"
          duracion := info.duration.getD 0
          formatos :=
            (((info.formats.getD []).filter
                (fun f => f.vcodec ≠ some "none")).map formatoLinea).dedup }

/-- A yt-dlp progress-hook status dictionary; `status` is always present in
dictionaries the library passes to hooks, the other keys may be absent. -/
structure ProgressDict where
  status : String
  percent_str : Option String
  speed_str : Option String
  eta_str : Option String
  filename : Option String
deriving DecidableEq, Repr

/-- Observable callback invocations of the minimal model. -/
inductive MEvent where
  | progresoCb (porcentaje velocidad tiempo_restante : String)
  | completadoCb (archivo : String)
deriving DecidableEq, Repr

/-- `DescargadorModelo._hook_progreso` (`modelo.py` lines 38-55).  The two
`Bool` arguments say whether `callback_progreso` / `callback_completado` are
set.  `d['filename']` is a direct (unguarded) dictionary access: when the key
is absent the hook raises `KeyError`, modelled as `Except.error`. -/
def hook_progreso (cbProgreso cbCompletado : Bool) (d : ProgressDict) :
    Except String (List MEvent) :=
  if d.status = "downloading" then
    .ok (if cbProgreso then
           [.progresoCb (d.percent_str.getD "N/A") (d.speed_str.getD "N/A")
              (d.eta_str.getD "N/A")]
         else [])
  else if d.status = "finished" then
    if cbCompletado then
      match d.filename with
      | some f => .ok [.completadoCb f]
      | none => .error "KeyError: filename"
    else .ok []
  else .ok []

/-! ### Minimal controller: `controlador.py` (`DescargadorControlador`) -/

/-- Calls the minimal controller makes on the view, in order. -/
inductive ViewCall where
  | mostrarError (mensaje : String)
  | mostrarInformacionVideo (info : Option VideoInfoResult)
deriving DecidableEq, Repr

/-- `DescargadorControlador.obtener_informacion_video` (`controlador.py` lines
26-42).  The controller performs two separate library calls — one inside
`validar_url`, one inside the model's `obtener_informacion_video` — so each
gets its own oracle.  `if not info:` is Python falsiness: the model returns
either `None` or a non-empty dictionary, so it is exactly `info = none`. -/
def controlador_obtener_informacion_video
    (validarOracle infoOracle : Except String InfoDict) : List ViewCall :=
  if validar_url validarOracle = false then
    [.mostrarError "La URL no es válida o no es compatible"]
  else
    let info := obtener_informacion_video infoOracle
    [.mostrarInformacionVideo info] ++
      (if info = none then
         [.mostrarError "No se pudo obtener información del video"]
       else [])

/-! ### Expanded model: `models/video_downloader_model.py` (`VideoDownloaderModel`)

The mutable attributes of `VideoDownloaderModel` that the embedded methods
read or write.  Callbacks are Python function references or `None`; only
their presence matters to control flow, so each is a `Bool` flag.  A thread
object is identified by a `Nat`. -/

/-- Download-relevant state of a `VideoDownloaderModel` instance. -/
structure ModelState where
  is_downloading : Bool
  current_download_thread : Option Nat
  has_progress_callback : Bool
  has_log_callback : Bool
  has_completion_callback : Bool
  has_error_callback : Bool
  default_download_path : String
  default_quality : String
deriving DecidableEq, Repr

/-- Observable callback invocations of the expanded model: a message delivered
to the log callback, a completion-callback call, an error-callback call. -/
inductive Event where
  | logMsg (msg : String)
  | completionCb (success : Bool) (msg : String)
  | errorCb (msg : String)
deriving DecidableEq, Repr

/-- `VideoDownloaderModel._log`: forwards the message to the log callback when
one is set, otherwise does nothing. -/
def modelLog (s : ModelState) (msg : String) : List Event :=
  if s.has_log_callback then [.logMsg msg] else []

/-- The `valid_patterns` list of `VideoDownloaderModel.validate_url`. -/
def valid_patterns : List String :=
  ["youtube.com", "youtu.be", "vimeo.com", "dailymotion.com",
   "twitch.tv", "facebook.com", "instagram.com", "tiktok.com"]

/-- `VideoDownloaderModel.validate_url` (`video_downloader_model.py` lines
73-93): reject empty / whitespace-only input (`not url or not url.strip()`),
then accept iff the lowercased url contains one of the eight fixed substrings
(`any(pattern in url_lower for pattern in valid_patterns)`).  No library call
is made. -/
def validate_url (url : String) : Bool :=
  if url.toList = [] ∨ stripChars url.toList = [] then false
  else
    let url_lower := lowerChars url.toList
    valid_patterns.any (fun pattern => isInfixL pattern.toList url_lower)

/-- Zero-padding to width 2, the Python format spec `{...:02d}` for arguments
below 100 (both call sites pass a value below 60). -/
def pad2 (n : Nat) : String :=
  if n < 10 then "0" ++ toString n else toString n

/-- `VideoDownloaderModel._format_duration` (lines 200-215): `"00:00"` for a
falsy (zero) duration, otherwise `f"{duration // 60}:{duration % 60:02d}"` —
the minutes field is unpadded and there is no hours component. -/
def format_duration (duration : Nat) : String :=
  if duration = 0 then "00:00"
  else toString (duration / 60) ++ ":" ++ pad2 (duration % 60)

/-- The yt-dlp option dictionary assembled by `get_ydl_options`.  The
`progress_hooks` entry (the singleton list `[self._progress_hook]`) is a
function value and is not part of the modelled data. -/
structure YdlOptions where
  writeinfojson : Bool
  writeautomaticsub : Bool
  ignoreerrors : Bool
  format : String
  noplaylist : Bool
  outtmpl : String
deriving DecidableEq, Repr

/-- `str(Path(a) / b)` for the non-empty relative/absolute paths used here;
pathlib's normalisation of empty or dot components is not modelled. -/
def pathJoin (a b : String) : String := a ++ "/" ++ b

/-- `VideoDownloaderModel.get_ydl_options` (lines 217-258): base options, the
`format_map.get(quality, 'best[height<=720]')` lookup, and the playlist /
single output-template split. -/
def get_ydl_options (download_path quality download_type : String) :
    YdlOptions :=
  let fmt :=
    if quality = "480p" then "best[height<=480]"
    else if quality = "720p" then "best[height<=720]"
    else if quality = "1080p" then "best[height<=1080]"
    else if quality = "Mejor disponible" then "best"
    else if quality = "Audio únicamente" then "bestaudio/best"
    else "best[height<=720]"
  if download_type = "playlist" then
    { writeinfojson := false, writeautomaticsub := false, ignoreerrors := true
      format := fmt, noplaylist := false
      outtmpl := pathJoin download_path
        "%(playlist_title)s/%(playlist_index)02d - %(title)s.%(ext)s" }
  else
    { writeinfojson := false, writeautomaticsub := false, ignoreerrors := true
      format := fmt, noplaylist := true
      outtmpl := pathJoin download_path "%(title)s.%(ext)s" }

/-- `VideoDownloaderModel.get_supported_formats` (lines 359-366). -/
def get_supported_formats : List String :=
  ["480p", "720p", "1080p", "Mejor disponible", "Audio únicamente"]

/-- `VideoDownloaderModel.start_download` (lines 270-301): refuse (returning
`False`, state untouched) while `is_downloading`; otherwise set
`is_downloading`, record the freshly created thread `t`, start it and return
`True`.  `Path(download_path).mkdir(parents=True, exist_ok=True)` is a
filesystem effect outside the modelled state (an OS-level failure there would
propagate; like all I/O faults of the host it is not modelled). -/
def start_download (s : ModelState) (t : Nat) : Bool × ModelState :=
  if s.is_downloading then (false, s)
  else (true, { s with is_downloading := true, current_download_thread := some t })

/-- The separator line `"-" * 50` logged by the worker. -/
def sepLine : String := String.mk (List.replicate 50 '-')

/-- `VideoDownloaderModel._download_worker` (lines 303-346).  The body is one
try/except/finally; the only fallible step is the library download (`with
yt_dlp.YoutubeDL(ydl_opts) as ydl: ydl.download([url])`), passed as the oracle
`dl`.  Returns the model state after the `finally` block together with the
events emitted along the way. -/
def download_worker (s : ModelState)
    (url download_path quality download_type : String)
    (dl : Except String Unit) : ModelState × List Event :=
  let pre :=
    modelLog s "🚀 Iniciando descarga..." ++
    modelLog s ("📎 URL: " ++ url) ++
    modelLog s ("📥 Tipo: " ++
      (if download_type = "playlist" then "Playlist completa"
       else "Video individual")) ++
    modelLog s ("🎥 Calidad: " ++ quality) ++
    modelLog s ("📁 Guardando en: " ++ download_path) ++
    modelLog s sepLine
  let events :=
    match dl with
    | .ok _ =>
        pre ++
        modelLog s "✅ ¡Descarga completada exitosamente!" ++
        modelLog s ("📁 Archivos guardados en: " ++ download_path) ++
        (if s.has_completion_callback then
           [.completionCb true "Descarga completada exitosamente"]
         else [])
    | .error e =>
        let error_msg := "Error durante la descarga: " ++ e
        pre ++
        modelLog s ("❌ " ++ error_msg) ++
        (if s.has_error_callback then [.errorCb error_msg] else [])
  ({ s with is_downloading := false, current_download_thread := none }, events)

/-- `VideoDownloaderModel.cancel_download` (lines 348-357): when a download is
flagged, log two advisory messages and clear `is_downloading`; nothing else is
touched and the running worker is not signalled. -/
def cancel_download (s : ModelState) : ModelState × List Event :=
  if s.is_downloading then
    ({ s with is_downloading := false },
     modelLog s "⚠️ Cancelando descarga..." ++
     modelLog s "ℹ️ La descarga actual se completará, pero no se iniciarán nuevas descargas")
  else (s, [])

/-! ### Expanded controller: `controllers/video_downloader_controller.py` -/

/-- Inputs `VideoDownloaderController._on_start_download` reads from the view
and the dialogs, plus the outcome of its guarded `mkdir` attempt. -/
structure ControllerInputs where
  url : String
  download_path : String
  quality : String
  download_type : String
  mkdir_ok : Bool
  confirm_answer : Bool
  current_video_info : Option InfoDict
deriving DecidableEq, Repr

/-- `VideoDownloaderController._on_start_download` (lines 294-298 hold the
`is_downloading` guard): validate the url, refuse while the model is already
downloading, try to create the folder, optionally confirm a large playlist,
then call `start_download`.  Returns `none` when the handler returns without
calling `start_download`, and `some r` when it calls it with result `r`.
Dialog and widget calls are GUI effects outside the modelled data. -/
def on_start_download (s : ModelState) (inp : ControllerInputs) (t : Nat) :
    Option (Bool × ModelState) :=
  if inp.url = "" then none
  else if validate_url inp.url = false then none
  else if s.is_downloading then none
  else if inp.mkdir_ok = false then none
  else
    let proceed :=
      if inp.download_type = "playlist" then
        match inp.current_video_info with
        | some info =>
            match info.entries with
            | some total_videos =>
                if total_videos > 10 then inp.confirm_answer else true
            | none => true
        | none => true
      else true
    if proceed then some (start_download s t) else none

/-! ### Helper lemmas -/

/-- `isPrefixL` decides `List.IsPrefix`. -/
theorem isPrefixL_iff (n h : List Char) : isPrefixL n h = true ↔ n <+: h := by
  induction n generalizing h with
  | nil => simp [isPrefixL]
  | cons a as ih =>
      cases h with
      | nil => simp [isPrefixL]
      | cons b bs =>
          simp [isPrefixL, List.cons_prefix_cons, ih, Bool.and_eq_true,
            beq_iff_eq]

/-- `isInfixL` decides `List.IsInfix`. -/
theorem isInfixL_iff (n h : List Char) : isInfixL n h = true ↔ n <:+: h := by
  induction h with
  | nil => simpa [isInfixL] using isPrefixL_iff n []
  | cons b bs ih =>
      simp [isInfixL, Bool.or_eq_true, isPrefixL_iff, ih, List.infix_cons_iff]

/-- The minimal model's `validar_url` is exactly success of the extraction
oracle. -/
theorem validar_url_ok_iff (r : Except String InfoDict) :
    validar_url r = true ↔ ∃ i, r = Except.ok i := by
  cases r <;> simp [validar_url]

/-- Characterisation of the expanded model's `validate_url` as the substring
predicate. -/
theorem validate_url_iff_spec (url : String) :
    validate_url url = true ↔
      (stripChars url.toList ≠ [] ∧
        ∃ p ∈ valid_patterns, p.toList <:+: lowerChars url.toList) := by
  unfold validate_url
  simp only [String.toList]
  by_cases hstrip : stripChars url.data = []
  · simp [hstrip]
  · have hnil : ¬url.data = [] := fun hn => hstrip (by rw [hn]; rfl)
    simp [hstrip, hnil, List.any_eq_true, isInfixL_iff]

/-! ### Claim theorems -/

/-- C4.  Total, exception-free query results in the minimal model: for every
extraction outcome, `validar_url` returns a boolean (the embedding is a total
function, so no exception escapes), `True` exactly when `extract_info`
returns normally and `False` when it raises; and `obtener_informacion_video`
returns `None` whenever the extraction step raises. -/
theorem consultas_totales_sin_excepcion (r : Except String InfoDict) :
    (validar_url r = true ↔ ∃ i, r = Except.ok i) ∧
    (∀ e, r = Except.error e → obtener_informacion_video r = none) := by
  refine ⟨validar_url_ok_iff r, ?_⟩
  intro e he
  subst he
  rfl

/-- Witness for C4 at concrete oracles: a failing extraction yields
`validar_url = false` and `obtener_informacion_video = none`. -/
theorem consultas_totales_sin_excepcion_witness :
    obtener_informacion_video (Except.error "Unsupported URL") = none ∧
    validar_url (Except.ok ⟨some "t", some 10, none, none⟩) = true := by
  refine ⟨(consultas_totales_sin_excepcion (Except.error "Unsupported URL")).2
    "Unsupported URL" rfl, ?_⟩
  exact (consultas_totales_sin_excepcion
    (Except.ok ⟨some "t", some 10, none, none⟩)).1.mpr ⟨_, rfl⟩

/-- C5.  Progress relay of the minimal model's `_hook_progreso`: on status
`'downloading'` with a progress callback set, the callback receives the
percent / speed / eta strings with `'N/A'` defaults (and with no callback set
nothing is invoked); on status `'finished'` with a completion callback set
and the `filename` key present, the completion callback receives it; on any
other status neither callback is invoked. -/
theorem hook_progreso_relay (cbProgreso cbCompletado : Bool)
    (d : ProgressDict) :
    (d.status = "downloading" →
      hook_progreso cbProgreso cbCompletado d =
        Except.ok
          (if cbProgreso then
             [MEvent.progresoCb (d.percent_str.getD "N/A")
                (d.speed_str.getD "N/A") (d.eta_str.getD "N/A")]
           else [])) ∧
    (d.status = "finished" → cbCompletado = true → ∀ f, d.filename = some f →
      hook_progreso cbProgreso cbCompletado d =
        Except.ok [MEvent.completadoCb f]) ∧
    (d.status ≠ "downloading" → d.status ≠ "finished" →
      hook_progreso cbProgreso cbCompletado d = Except.ok []) := by
  refine ⟨?_, ?_, ?_⟩
  · intro hs
    simp [hook_progreso, hs]
  · intro hs hcb f hf
    have hne : d.status ≠ "downloading" := by
      rw [hs]; decide
    simp [hook_progreso, hs, hne, hcb, hf]
  · intro h1 h2
    simp [hook_progreso, h1, h2]

/-- Witness for C5 at a concrete downloading dictionary (absent speed key
defaults to `'N/A'`) and a concrete finished dictionary. -/
theorem hook_progreso_relay_witness :
    hook_progreso true true
        ⟨"downloading", some " 50.0%", none, some "00:10", none⟩ =
      Except.ok [MEvent.progresoCb " 50.0%" "N/A" "00:10"] ∧
    hook_progreso true true ⟨"finished", none, none, none, some "a.mp4"⟩ =
      Except.ok [MEvent.completadoCb "a.mp4"] ∧
    hook_progreso true true ⟨"postprocessing", none, none, none, none⟩ =
      Except.ok [] := by
  refine ⟨?_, ?_, ?_⟩
  · exact (hook_progreso_relay true true
      ⟨"downloading", some " 50.0%", none, some "00:10", none⟩).1 rfl
  · exact (hook_progreso_relay true true
      ⟨"finished", none, none, none, some "a.mp4"⟩).2.1 rfl rfl "a.mp4" rfl
  · exact (hook_progreso_relay true true
      ⟨"postprocessing", none, none, none, none⟩).2.2 (by decide) (by decide)

/-- C8.  The expanded model's `validate_url` is a pure substring test: it
accepts exactly the strings that are non-empty after stripping whitespace and
whose lowercased form contains one of the eight fixed site substrings;
no external-library call occurs (the embedding depends only on the string). -/
theorem validate_url_substring_test (url : String) :
    validate_url url = true ↔
      (stripChars url.toList ≠ [] ∧
        ∃ p ∈ valid_patterns, p.toList <:+: lowerChars url.toList) :=
  validate_url_iff_spec url

/-- Witness for C8: the non-URL string `"watch youtube.com later"` is
accepted because it merely contains `'youtube.com'`. -/
theorem validate_url_substring_test_witness :
    validate_url "watch youtube.com later" = true :=
  (validate_url_substring_test "watch youtube.com later").mpr
    ⟨by decide, "youtube.com", by decide,
     ⟨"watch ".toList, " later".toList, by decide⟩⟩

/-- C9.  When URL validation succeeds but the model's
`obtener_informacion_video` returns `None`, the minimal controller still
passes that `None` to `vista.mostrar_informacion_video` and only afterwards
shows the error dialog. -/
theorem vista_recibe_none (validarOracle infoOracle : Except String InfoDict)
    (h1 : validar_url validarOracle = true)
    (h2 : obtener_informacion_video infoOracle = none) :
    controlador_obtener_informacion_video validarOracle infoOracle =
      [ViewCall.mostrarInformacionVideo none,
       ViewCall.mostrarError "No se pudo obtener información del video"] := by
  unfold controlador_obtener_informacion_video
  rw [h1]
  simp [h2]

/-- Witness for C9: a succeeding validation oracle together with a failing
information oracle. -/
theorem vista_recibe_none_witness :
    controlador_obtener_informacion_video
        (Except.ok ⟨some "t", some 10, none, none⟩)
        (Except.error "HTTP Error 403") =
      [ViewCall.mostrarInformacionVideo none,
       ViewCall.mostrarError "No se pudo obtener información del video"] :=
  vista_recibe_none (Except.ok ⟨some "t", some 10, none, none⟩)
    (Except.error "HTTP Error 403") rfl rfl

/-- C10.  Duration formatting: `_format_duration` returns `"00:00"` at zero
and otherwise the unpadded minutes `duration // 60`, a colon, and the
two-digit zero-padded seconds `duration % 60`; for durations of an hour or
more the minutes field is 60 or greater (no hours component is produced). -/
theorem format_duration_spec (d : Nat) :
    (d = 0 → format_duration d = "00:00") ∧
    (d ≠ 0 →
      format_duration d = toString (d / 60) ++ ":" ++ pad2 (d % 60) ∧
      ∃ m s, d = 60 * m + s ∧ s < 60 ∧
        format_duration d = toString m ++ ":" ++ pad2 s ∧
        (pad2 s).length = 2) ∧
    (3600 ≤ d → 60 ≤ d / 60) := by
  have hpad : ∀ s : Nat, s < 60 → (pad2 s).length = 2 := by decide
  refine ⟨?_, ?_, ?_⟩
  · intro h; simp [format_duration, h]
  · intro h
    have hform : format_duration d = toString (d / 60) ++ ":" ++ pad2 (d % 60) := by
      simp [format_duration, h]
    refine ⟨hform, d / 60, d % 60, ?_, Nat.mod_lt _ (by norm_num), hform,
      hpad _ (Nat.mod_lt _ (by norm_num))⟩
    omega
  · intro h
    have : 60 * 60 ≤ d := by omega
    exact (Nat.le_div_iff_mul_le (by norm_num)).mpr (by omega)

/-- Witness for C10 at 3725 seconds (1 h 2 min 5 s): rendered as minutes 62,
not with an hours field. -/
theorem format_duration_spec_witness :
    format_duration 3725 = toString (3725 / 60) ++ ":" ++ pad2 (3725 % 60) ∧
    60 ≤ 3725 / 60 ∧ format_duration 0 = "00:00" :=
  ⟨((format_duration_spec 3725).2.1 (by decide)).1,
   (format_duration_spec 3725).2.2 (by decide),
   (format_duration_spec 0).1 rfl⟩

/-- C1.  Single-download gate: while `is_downloading` is set,
`start_download` returns `False` leaving the state untouched and the
controller's `_on_start_download` handler never reaches the
`start_download` call; otherwise `start_download` returns `True`, sets
`is_downloading`, and records the new download thread. -/
theorem single_download_gate (s : ModelState) (t : Nat)
    (inp : ControllerInputs) :
    (s.is_downloading = true →
      start_download s t = (false, s) ∧ on_start_download s inp t = none) ∧
    (s.is_downloading = false →
      (start_download s t).1 = true ∧
      (start_download s t).2.is_downloading = true ∧
      (start_download s t).2.current_download_thread = some t) := by
  constructor
  · intro h
    refine ⟨by simp [start_download, h], ?_⟩
    unfold on_start_download
    by_cases h1 : inp.url = "" <;>
      by_cases h2 : validate_url inp.url = false <;>
        simp [h1, h2, h]
  · intro h
    simp [start_download, h]

/-- Witness for C1: a busy model refuses (both in the model and in the
controller handler), an idle model starts and records thread 3. -/
theorem single_download_gate_witness :
    start_download ⟨true, some 7, true, true, true, true, "./descargas", "720p"⟩ 3 =
      (false, ⟨true, some 7, true, true, true, true, "./descargas", "720p"⟩) ∧
    on_start_download ⟨true, some 7, true, true, true, true, "./descargas", "720p"⟩
      ⟨"https://youtube.com/watch", "./descargas", "720p", "single", true, true, none⟩ 3 = none ∧
    (start_download ⟨false, none, true, true, true, true, "./descargas", "720p"⟩ 3).1 = true ∧
    (start_download ⟨false, none, true, true, true, true, "./descargas", "720p"⟩ 3).2.is_downloading = true ∧
    (start_download ⟨false, none, true, true, true, true, "./descargas", "720p"⟩ 3).2.current_download_thread = some 3 := by
  have hbusy := (single_download_gate
    ⟨true, some 7, true, true, true, true, "./descargas", "720p"⟩ 3
    ⟨"https://youtube.com/watch", "./descargas", "720p", "single", true, true, none⟩).1 rfl
  have hidle := (single_download_gate
    ⟨false, none, true, true, true, true, "./descargas", "720p"⟩ 3
    ⟨"https://youtube.com/watch", "./descargas", "720p", "single", true, true, none⟩).2 rfl
  exact ⟨hbusy.1, hbusy.2, hidle.1, hidle.2.1, hidle.2.2⟩

/-- C2.  Advisory cancellation: `cancel_download` only clears the
`is_downloading` flag — when set, the result state is exactly the input with
`is_downloading := false` (so `current_download_thread` and every other field
are unchanged) and the two advisory log lines are emitted (when a log
callback is set); when clear, nothing at all changes; and a worker run from
the cancelled state is indistinguishable from one run without cancelling, so
the in-flight library call is not interrupted. -/
theorem cancel_download_advisory (s : ModelState)
    (u p q ty : String) (r : Except String Unit) :
    ((cancel_download s).1 =
      (if s.is_downloading then { s with is_downloading := false } else s)) ∧
    (cancel_download s).1.current_download_thread = s.current_download_thread ∧
    (s.is_downloading = true → s.has_log_callback = true →
      (cancel_download s).2 =
        [Event.logMsg "⚠️ Cancelando descarga...",
         Event.logMsg "ℹ️ La descarga actual se completará, pero no se iniciarán nuevas descargas"]) ∧
    (s.is_downloading = true → s.has_log_callback = false →
      (cancel_download s).2 = []) ∧
    (s.is_downloading = false → cancel_download s = (s, [])) ∧
    download_worker (cancel_download s).1 u p q ty r =
      download_worker s u p q ty r := by
  obtain ⟨dl, th, pc, lc, cc, ec, dp, dq⟩ := s
  cases dl <;> cases lc <;> cases r <;>
    simp [cancel_download, modelLog, download_worker]

/-- Witness for C2 at a busy logging state: flag cleared, thread kept, two
advisory lines, and the worker outcome unchanged by the cancellation. -/
theorem cancel_download_advisory_witness :
    (cancel_download ⟨true, some 7, true, true, true, true, "./descargas", "720p"⟩).1 =
      ⟨false, some 7, true, true, true, true, "./descargas", "720p"⟩ ∧
    (cancel_download ⟨true, some 7, true, true, true, true, "./descargas", "720p"⟩).2 =
      [Event.logMsg "⚠️ Cancelando descarga...",
       Event.logMsg "ℹ️ La descarga actual se completará, pero no se iniciarán nuevas descargas"] ∧
    download_worker
        (cancel_download ⟨true, some 7, true, true, true, true, "./descargas", "720p"⟩).1
        "u" "./descargas" "720p" "single" (Except.ok ()) =
      download_worker ⟨true, some 7, true, true, true, true, "./descargas", "720p"⟩
        "u" "./descargas" "720p" "single" (Except.ok ()) := by
  have h := cancel_download_advisory
    ⟨true, some 7, true, true, true, true, "./descargas", "720p"⟩
    "u" "./descargas" "720p" "single" (Except.ok ())
  exact ⟨h.1, h.2.2.1 rfl rfl, h.2.2.2.2.2⟩

/-- C3.  Worker termination discipline: every run of `_download_worker` ends
with `is_downloading = false` and `current_download_thread = None`; when the
library download raises, the error callback (when set) receives a message
containing the exception text; when it returns normally, the completion
callback (when set) receives success `True`. -/
theorem download_worker_termination (s : ModelState)
    (u p q ty : String) (r : Except String Unit) :
    (download_worker s u p q ty r).1.is_downloading = false ∧
    (download_worker s u p q ty r).1.current_download_thread = none ∧
    (∀ e, r = Except.error e → s.has_error_callback = true →
      Event.errorCb ("Error durante la descarga: " ++ e) ∈
          (download_worker s u p q ty r).2 ∧
      ∃ msg, Event.errorCb msg ∈ (download_worker s u p q ty r).2 ∧
        e.toList <:+: msg.toList) ∧
    (r = Except.ok () → s.has_completion_callback = true →
      Event.completionCb true "Descarga completada exitosamente" ∈
        (download_worker s u p q ty r).2) := by
  refine ⟨by simp [download_worker], by simp [download_worker], ?_, ?_⟩
  · intro e he hec
    subst he
    have hmem : Event.errorCb ("Error durante la descarga: " ++ e) ∈
        (download_worker s u p q ty (Except.error e)).2 := by
      simp [download_worker, hec]
    refine ⟨hmem, "Error durante la descarga: " ++ e, hmem,
      ⟨"Error durante la descarga: ".toList, [], ?_⟩⟩
    show "Error durante la descarga: ".data ++ e.data ++ [] =
      ("Error durante la descarga: " ++ e).data
    simp
  · intro hr hcc
    subst hr
    simp [download_worker, hcc]

/-- Witness for C3: a failing run surfaces the exception text through the
error callback and resets the download state; a succeeding run invokes the
completion callback with success `True`. -/
theorem download_worker_termination_witness :
    (download_worker ⟨true, some 1, true, true, true, true, "./descargas", "720p"⟩
        "u" "./descargas" "720p" "single" (Except.error "boom")).1.is_downloading = false ∧
    (download_worker ⟨true, some 1, true, true, true, true, "./descargas", "720p"⟩
        "u" "./descargas" "720p" "single" (Except.error "boom")).1.current_download_thread = none ∧
    Event.errorCb ("Error durante la descarga: " ++ "boom") ∈
      (download_worker ⟨true, some 1, true, true, true, true, "./descargas", "720p"⟩
        "u" "./descargas" "720p" "single" (Except.error "boom")).2 ∧
    Event.completionCb true "Descarga completada exitosamente" ∈
      (download_worker ⟨true, some 1, true, true, true, true, "./descargas", "720p"⟩
        "u" "./descargas" "720p" "single" (Except.ok ())).2 := by
  have herr := download_worker_termination
    ⟨true, some 1, true, true, true, true, "./descargas", "720p"⟩
    "u" "./descargas" "720p" "single" (Except.error "boom")
  have hok := download_worker_termination
    ⟨true, some 1, true, true, true, true, "./descargas", "720p"⟩
    "u" "./descargas" "720p" "single" (Except.ok ())
  exact ⟨herr.1, herr.2.1, (herr.2.2.1 "boom" rfl rfl).1, hok.2.2.2 rfl rfl⟩

/-- C6.  Option assembly by `get_ydl_options`: the `format` entry follows the
five-quality map with default `'best[height<=720]'` for any other quality
string; `noplaylist` is `False` with the playlist-indexed output template
exactly when the download type is `'playlist'` and `True` with the plain
template otherwise; `ignoreerrors` is always `True`. -/
theorem get_ydl_options_spec (path quality dtype : String) :
    (quality = "480p" →
      (get_ydl_options path quality dtype).format = "best[height<=480]") ∧
    (quality = "720p" →
      (get_ydl_options path quality dtype).format = "best[height<=720]") ∧
    (quality = "1080p" →
      (get_ydl_options path quality dtype).format = "best[height<=1080]") ∧
    (quality = "Mejor disponible" →
      (get_ydl_options path quality dtype).format = "best") ∧
    (quality = "Audio únicamente" →
      (get_ydl_options path quality dtype).format = "bestaudio/best") ∧
    (quality ∉ get_supported_formats →
      (get_ydl_options path quality dtype).format = "best[height<=720]") ∧
    (dtype = "playlist" →
      (get_ydl_options path quality dtype).noplaylist = false ∧
      (get_ydl_options path quality dtype).outtmpl =
        pathJoin path "%(playlist_title)s/%(playlist_index)02d - %(title)s.%(ext)s") ∧
    (dtype ≠ "playlist" →
      (get_ydl_options path quality dtype).noplaylist = true ∧
      (get_ydl_options path quality dtype).outtmpl =
        pathJoin path "%(title)s.%(ext)s") ∧
    (get_ydl_options path quality dtype).ignoreerrors = true := by
  refine ⟨?_, ?_, ?_, ?_, ?_, ?_, ?_, ?_, ?_⟩ <;>
    first
    | (intro h
       by_cases hd : dtype = "playlist" <;>
         simp_all [get_ydl_options, get_supported_formats, not_or])
    | (by_cases hd : dtype = "playlist" <;>
         simp [get_ydl_options, hd])

/-- Witness for C6 at concrete arguments: audio-only single download and a
default-quality playlist download. -/
theorem get_ydl_options_spec_witness :
    (get_ydl_options "./d" "Audio únicamente" "single").format = "bestaudio/best" ∧
    (get_ydl_options "./d" "Audio únicamente" "single").noplaylist = true ∧
    (get_ydl_options "./d" "Audio únicamente" "single").outtmpl = pathJoin "./d" "%(title)s.%(ext)s" ∧
    (get_ydl_options "./d" "4K" "playlist").format = "best[height<=720]" ∧
    (get_ydl_options "./d" "4K" "playlist").noplaylist = false ∧
    (get_ydl_options "./d" "4K" "playlist").ignoreerrors = true := by
  have h1 := get_ydl_options_spec "./d" "Audio únicamente" "single"
  have h2 := get_ydl_options_spec "./d" "4K" "playlist"
  refine ⟨h1.2.2.2.2.1 rfl, (h1.2.2.2.2.2.2.2.1 (by decide)).1,
    (h1.2.2.2.2.2.2.2.1 (by decide)).2, h2.2.2.2.2.2.1 (by decide),
    (h2.2.2.2.2.2.2.1 rfl).1, h2.2.2.2.2.2.2.2.2⟩

/-- C7 counterexample: the two URL validators do not decide the same
predicate.  The bare string `"youtube.com"` passes the expanded model's
substring test, while the minimal model's `validar_url` returns `False`
whenever the library's `extract_info` raises — as it does on that non-URL
string; hence the claimed pointwise equivalence is false. -/
theorem url_validation_equivalence_counterexample :
    validate_url "youtube.com" = true ∧
    validar_url (Except.error "Unsupported URL: youtube.com") = false ∧
    ¬(∀ (url : String) (r : Except String InfoDict),
        validar_url r = validate_url url) := by
  have h2 : validate_url "youtube.com" = true := by decide
  refine ⟨h2, rfl, ?_⟩
  intro hall
  have h1 := hall "youtube.com" (Except.error "Unsupported URL: youtube.com")
  simp [validar_url, h2] at h1

/-- C7 amended.  The validators decide different predicates: `validar_url`
is `True` exactly when the extraction oracle succeeds, `validate_url` is the
substring test; for a given URL and extraction outcome the two agree exactly
when extraction success coincides with the substring predicate. -/
theorem url_validators_agree_iff (url : String)
    (r : Except String InfoDict) :
    validar_url r = validate_url url ↔
      ((∃ i, r = Except.ok i) ↔
        (stripChars url.toList ≠ [] ∧
          ∃ p ∈ valid_patterns, p.toList <:+: lowerChars url.toList)) := by
  rw [← validar_url_ok_iff, ← validate_url_iff_spec]
  cases hv : validar_url r <;> cases hu : validate_url url <;> simp

end GestorVideos
